import Mathlib

/-!
Shallow embedding of the ClaraVerse remote-server installer
(`claraverse-agent-deployement/install.py`) and proofs about its
selection prompt, deployment driver, health poller and main flow.

Conventions of the embedding:
* The service catalog (`self.services`, an insertion-ordered dict) is an
  association list `List (String × Service)`; iteration order is list order.
* Subprocess execution (`subprocess.run`) is an oracle
  `List String → CmdOutcome` giving, for each argv, either a completed
  process (return code and stdout), a timeout, or a raised exception.
* HTTP health requests (`urllib.request.urlopen`) are an oracle
  `Nat → Nat → String → Option Nat`: per attempt number, port and path,
  either a response status code or `none` for any raised error.
* Operator input (`input()`) is a stream `Nat → String` of prompt answers.
* Loops whose termination depends on the operator (the selection prompt)
  take explicit fuel and return `Option`.
-/

/-- One entry of the service catalog (`self.services[key]`, install.py
lines 44-66): display name, description, port, health path and the
mutable selection flag. -/
structure Service where
  name : String
  description : String
  port : Nat
  health_path : String
  selected : Bool
deriving DecidableEq, Repr

/-- The catalog: an ordered association list from service identifier to
descriptor, mirroring the insertion-ordered Python dict. -/
abbrev Catalog := List (String × Service)

/-- The initial catalog built in `__init__` (install.py lines 44-66):
three services, none selected. -/
def initialServices : Catalog :=
  [("clara_comfyui", ⟨"ComfyUI", "AI Image Generation Powerhouse", 8188, "/", false⟩),
   ("clara_python", ⟨"Python Backend", "Advanced AI Processing APIs", 5001, "/health", false⟩),
   ("clara_n8n", ⟨"n8n Workflows", "Automation Made Simple", 5678, "/healthz", false⟩)]

/-! ## Selection prompt (install.py `select_services`, lines 189-234) -/

/-- Python `str.strip()` on the character list: drop leading and trailing
whitespace. -/
def stripEnds (l : List Char) : List Char :=
  ((l.dropWhile Char.isWhitespace).reverse.dropWhile Char.isWhitespace).reverse

/-- The loop `for service in self.services.values(): service.selected = True`
(install.py lines 203-204). -/
def selectAll (services : Catalog) : Catalog :=
  services.map (fun p => (p.1, { p.2 with selected := true }))

/-- The loop `for service in self.services.values(): service.selected = False`
(install.py lines 209-210). -/
def clearAll (services : Catalog) : Catalog :=
  services.map (fun p => (p.1, { p.2 with selected := false }))

/-- The update `self.services[service_list[idx]].selected = True` for position
`i` (install.py line 218): keys are unique, so keyed update equals
positional update. Out of range leaves the catalog unchanged (the caller
guards the bound). -/
def setSelectedAt (services : Catalog) (i : Nat) : Catalog :=
  match services[i]? with
  | some p => services.set i (p.1, { p.2 with selected := true })
  | none => services

/-- The index selected by one input character (install.py lines 215-217):
`if char.isdigit(): idx = int(char) - 1; if 0 <= idx < len(service_list)`.
`int(char)` for an ASCII digit is `char.toNat - 48`. -/
def charIdx (n : Nat) (c : Char) : Option Nat :=
  if c.isDigit then
    if 0 ≤ ((c.toNat : Int) - 48) - 1 ∧ ((c.toNat : Int) - 48) - 1 < (n : Int) then
      some (((c.toNat : Int) - 48) - 1).toNat
    else none
  else none

/-- Apply one character of the selection string (install.py lines 214-218). -/
def applyDigit (services : Catalog) (c : Char) : Catalog :=
  match charIdx services.length c with
  | some i => setSelectedAt services i
  | none => services

/-- The `for char in choice...` loop of install.py lines 214-218. -/
def applyDigits (services : Catalog) (cs : List Char) : Catalog :=
  cs.foldl applyDigit services

/-- The test `any(service.selected for service in self.services.values())`
(install.py line 221). -/
def anySelected (services : Catalog) : Bool :=
  services.any (fun p => p.2.selected)

/-- Result of one round of the selection prompt loop: `done` means the
loop `break`s with the given catalog, `reprompt` means it loops again
carrying the given catalog. -/
inductive SelectOutcome where
  | done (services : Catalog)
  | reprompt (services : Catalog)
deriving DecidableEq, Repr

/-- The catalog carried out of a prompt round, whichever way it ended. -/
def outcomeServices : SelectOutcome → Catalog
  | .done s => s
  | .reprompt s => s

/-- One iteration of the `while True` prompt loop of install.py lines
199-226 on raw input `raw`: strip, compare the uppercase of the whole
string with `"A"`, otherwise (if non-empty) clear all flags and apply the
digit characters of the input with `','` and `' '` removed
(`choice.replace(',', '').replace(' ', '')`), re-prompting when nothing
got selected; empty input re-prompts unchanged. -/
def processChoice (services : Catalog) (raw : String) : SelectOutcome :=
  if (stripEnds raw.toList).map Char.toUpper = ['A'] then
    SelectOutcome.done (selectAll services)
  else if stripEnds raw.toList ≠ [] then
    if anySelected (applyDigits (clearAll services)
        ((stripEnds raw.toList).filter (fun c => !(c == ',' || c == ' ')))) then
      SelectOutcome.done (applyDigits (clearAll services)
        ((stripEnds raw.toList).filter (fun c => !(c == ',' || c == ' '))))
    else
      SelectOutcome.reprompt (applyDigits (clearAll services)
        ((stripEnds raw.toList).filter (fun c => !(c == ',' || c == ' '))))
  else
    SelectOutcome.reprompt services

/-- The whole `while True` selection loop, driven by the input stream
`inputs` from prompt number `k`, with explicit fuel; `none` means the
fuel ran out before the loop terminated. -/
def selectLoop (inputs : Nat → String) : Nat → Nat → Catalog → Option Catalog
  | _, 0, _ => none
  | k, fuel + 1, services =>
    match processChoice services (inputs k) with
    | .done s2 => some s2
    | .reprompt s2 => selectLoop inputs (k + 1) fuel s2

/-! ### Selection lemmas -/

/-- The selection flag at position `i`, `false` out of range. -/
def flagAt (services : Catalog) (i : Nat) : Bool :=
  match services[i]? with
  | some p => p.2.selected
  | none => false

theorem setSelectedAt_length (services : Catalog) (i : Nat) :
    (setSelectedAt services i).length = services.length := by
  unfold setSelectedAt
  cases h : services[i]? <;> simp

theorem applyDigit_length (services : Catalog) (c : Char) :
    (applyDigit services c).length = services.length := by
  unfold applyDigit
  cases h : charIdx services.length c <;> simp [setSelectedAt_length]

theorem applyDigits_length (cs : List Char) (services : Catalog) :
    (applyDigits services cs).length = services.length := by
  induction cs generalizing services with
  | nil => rfl
  | cons c cs ih => simp [applyDigits, List.foldl_cons] at ih ⊢
                    rw [ih, applyDigit_length]

theorem clearAll_length (services : Catalog) :
    (clearAll services).length = services.length := by
  simp [clearAll]

theorem flagAt_clearAll (services : Catalog) (i : Nat) :
    flagAt (clearAll services) i = false := by
  unfold flagAt clearAll
  rw [List.getElem?_map]
  cases services[i]? <;> rfl

theorem flagAt_selectAll (services : Catalog) (i : Nat) (h : i < services.length) :
    flagAt (selectAll services) i = true := by
  unfold flagAt selectAll
  rw [List.getElem?_map, List.getElem?_eq_getElem h]
  rfl

theorem charIdx_lt {n : Nat} {c : Char} {i : Nat} (h : charIdx n c = some i) :
    i < n := by
  unfold charIdx at h
  split at h
  · split at h
    · rename_i hb
      obtain ⟨h0, hn⟩ := hb
      cases h
      omega
    · exact absurd h (by simp)
  · exact absurd h (by simp)

theorem flagAt_setSelectedAt (services : Catalog) (i : Nat) (h : i < services.length)
    (j : Nat) :
    flagAt (setSelectedAt services i) j = (flagAt services j || decide (j = i)) := by
  unfold setSelectedAt flagAt
  rw [List.getElem?_eq_getElem h]
  by_cases hji : j = i
  · subst hji
    rw [List.getElem?_set_self', List.getElem?_eq_getElem h]
    simp
  · rw [List.getElem?_set_ne (by omega)]
    cases services[j]? <;> simp [hji]

theorem flagAt_applyDigit (services : Catalog) (c : Char) (j : Nat) :
    flagAt (applyDigit services c) j =
      (flagAt services j || decide (charIdx services.length c = some j)) := by
  unfold applyDigit
  cases hc : charIdx services.length c with
  | none => simp
  | some i =>
      rw [flagAt_setSelectedAt services i (charIdx_lt hc) j]
      have hdec : (some i = some j) ↔ (j = i) := by
        constructor
        · intro h; exact (Option.some.inj h).symm
        · intro h; rw [h]
      simp [hdec]

/-- The list of valid catalog indices named by the digit characters of an
input, in input order. -/
def digitIndices (n : Nat) (cs : List Char) : List Nat :=
  cs.filterMap (charIdx n)

theorem flagAt_applyDigits (cs : List Char) (services : Catalog) (j : Nat) :
    flagAt (applyDigits services cs) j =
      (flagAt services j || decide (j ∈ digitIndices services.length cs)) := by
  induction cs generalizing services with
  | nil => simp [applyDigits, digitIndices]
  | cons c cs ih =>
      have hstep : applyDigits services (c :: cs) = applyDigits (applyDigit services c) cs := by
        simp [applyDigits, List.foldl_cons]
      rw [hstep, ih, flagAt_applyDigit, applyDigit_length]
      unfold digitIndices
      rw [List.filterMap_cons]
      cases hc : charIdx services.length c with
      | none => simp [digitIndices, hc]
      | some i =>
          simp only [List.mem_cons, hc, Option.some.injEq, digitIndices]
          by_cases hji : j = i <;> simp [hji, Bool.or_assoc, Bool.or_comm, eq_comm]

/-- Membership in `digitIndices` implies the index is in range. -/
theorem digitIndices_lt {n : Nat} {cs : List Char} {j : Nat}
    (h : j ∈ digitIndices n cs) : j < n := by
  unfold digitIndices at h
  rw [List.mem_filterMap] at h
  obtain ⟨c, _, hc⟩ := h
  exact charIdx_lt hc

/-- A catalog with a prior selection in the middle slot, used to check
that prompt submissions act independently of prior flags. -/
def mixedServices : Catalog :=
  [("clara_comfyui", ⟨"ComfyUI", "AI Image Generation Powerhouse", 8188, "/", false⟩),
   ("clara_python", ⟨"Python Backend", "Advanced AI Processing APIs", 5001, "/health", true⟩),
   ("clara_n8n", ⟨"n8n Workflows", "Automation Made Simple", 5678, "/healthz", false⟩)]

/-- Claim C1 (counterexample): the literal prompt input "all" does not
select every service. The code compares the uppercased input with the
single letter "A" (install.py line 202), so "all" falls into the digit
branch, clears every flag and re-prompts instead of terminating. -/
theorem select_all_literal_token_counterexample :
    processChoice initialServices "all" =
      SelectOutcome.reprompt (clearAll initialServices) ∧
    (∀ p ∈ outcomeServices (processChoice initialServices "all"),
      p.2.selected = false) := by
  decide

/-- Claim C1 (amended): for every prompt input that, after stripping
surrounding whitespace, uppercases to the single-letter token "A", the
selection prompt sets the selection flag of every catalog entry to true
regardless of the prior value of any flag, and the prompt loop
terminates in that round. -/
theorem select_all_token_selects_everything (services : Catalog) (raw : String)
    (h : (stripEnds raw.toList).map Char.toUpper = ['A']) :
    processChoice services raw = SelectOutcome.done (selectAll services) ∧
    (∀ i, i < (selectAll services).length → flagAt (selectAll services) i = true) ∧
    (∀ inputs : Nat → String, ∀ k fuel : Nat, inputs k = raw →
      selectLoop inputs k (fuel + 1) services = some (selectAll services)) := by
  have hp : processChoice services raw = SelectOutcome.done (selectAll services) := by
    unfold processChoice
    rw [if_pos h]
  refine ⟨hp, ?_, ?_⟩
  · intro i hi
    apply flagAt_selectAll
    simpa [selectAll] using hi
  · intro inputs k fuel hk
    simp [selectLoop, hk, hp]

/-- Claim C1 witness: input " a " on a catalog with a prior selection. -/
theorem select_all_token_selects_everything_witness :
    (stripEnds " a ".toList).map Char.toUpper = ['A'] ∧
    processChoice mixedServices " a " = SelectOutcome.done (selectAll mixedServices) ∧
    flagAt (selectAll mixedServices) 0 = true ∧
    selectLoop (fun _ => " a ") 0 1 mixedServices = some (selectAll mixedServices) :=
  ⟨by decide,
   (select_all_token_selects_everything mixedServices " a " (by decide)).1,
   (select_all_token_selects_everything mixedServices " a " (by decide)).2.1 0 (by decide),
   (select_all_token_selects_everything mixedServices " a " (by decide)).2.2
     (fun _ => " a ") 0 0 rfl⟩

/-- Claim C2: a stripped, non-empty submission that is not the "A" token
replaces the selection wholesale: afterwards the flag at position `i` is
set exactly when `i` is a valid 1-based-digit index of the submission
(separators removed), independent of every prior flag; out-of-range
digits contribute nothing. -/
theorem digit_submission_replaces_selection (services : Catalog) (raw : String)
    (hA : (stripEnds raw.toList).map Char.toUpper ≠ ['A'])
    (hne : stripEnds raw.toList ≠ []) :
    ∀ i, flagAt (outcomeServices (processChoice services raw)) i =
      decide (i ∈ digitIndices services.length
        ((stripEnds raw.toList).filter (fun c => !(c == ',' || c == ' ')))) := by
  intro i
  have hmain : outcomeServices (processChoice services raw) =
      applyDigits (clearAll services)
        ((stripEnds raw.toList).filter (fun c => !(c == ',' || c == ' '))) := by
    unfold processChoice
    rw [if_neg hA, if_pos hne]
    split <;> rfl
  rw [hmain, flagAt_applyDigits, flagAt_clearAll, clearAll_length, Bool.false_or]

/-- Claim C2 witness: submission "1,3" on a catalog whose middle entry
was previously selected ends with exactly slots 0 and 2 selected. -/
theorem digit_submission_replaces_selection_witness :
    (stripEnds "1,3".toList).map Char.toUpper ≠ ['A'] ∧
    stripEnds "1,3".toList ≠ [] ∧
    flagAt (outcomeServices (processChoice mixedServices "1,3")) 0 = true ∧
    flagAt (outcomeServices (processChoice mixedServices "1,3")) 1 = false ∧
    flagAt (outcomeServices (processChoice mixedServices "1,3")) 2 = true :=
  ⟨by decide, by decide,
   ((digit_submission_replaces_selection mixedServices "1,3" (by decide) (by decide)) 0).trans
     (by decide),
   ((digit_submission_replaces_selection mixedServices "1,3" (by decide) (by decide)) 1).trans
     (by decide),
   ((digit_submission_replaces_selection mixedServices "1,3" (by decide) (by decide)) 2).trans
     (by decide)⟩

/-! ## Health poller (install.py `check_service_health` lines 270-281 and
`wait_for_services` lines 283-314) -/

/-- Oracle for `urllib.request.urlopen` on
`http://localhost:{port}{path}`: per attempt number, the status code of
the response, or `none` when the request raises (network error, timeout,
or an HTTPError for a non-2xx status is also representable as its code,
since either way the code below only asks whether the result is 200). -/
abbrev HttpEnv := Nat → Nat → String → Option Nat

/-- Function `check_service_health` (install.py lines 270-281): healthy iff the
request yields a response whose code is exactly 200; every raised error
is caught and yields `False`. -/
def check_service_health (env : HttpEnv) (attempt : Nat) (port : Nat)
    (path : String) : Bool :=
  match env attempt port path with
  | some code => code == 200
  | none => false

/-- One health round (the inner `for` of install.py lines 293-303):
walk the catalog in order, skip unselected entries, check each selected
entry; the first failing check sets `all_healthy = False` and `break`s.
Returns the identifiers actually checked, in order, and the round's
`all_healthy` flag. -/
def roundChecks (env : HttpEnv) (attempt : Nat) : Catalog → List String × Bool
  | [] => ([], true)
  | p :: rest =>
    if p.2.selected then
      if check_service_health env attempt p.2.port p.2.health_path then
        ((roundChecks env attempt rest).1.cons p.1, (roundChecks env attempt rest).2)
      else ([p.1], false)
    else roundChecks env attempt rest

/-- The identifiers the poller's round iterates over: the selected
entries in catalog order (the `continue` filter of install.py lines
294-295). -/
def pollConsidered : Catalog → List String
  | [] => []
  | p :: rest =>
    if p.2.selected then p.1 :: pollConsidered rest else pollConsidered rest

/-- How `wait_for_services` ends: a fully healthy round (the `return
True` of line 307) or exhaustion of the attempt budget (the warning path
of lines 312-314, which also returns `True` — non-fatal). -/
inductive WaitOutcome where
  | healthy
  | timedOut
deriving DecidableEq, Repr

/-- Trace of one round: its attempt number, the identifiers checked, and
the duration of the `time.sleep` executed after it, if any. -/
structure Round where
  attempt : Nat
  checked : List String
  sleptAfter : Option Nat
deriving DecidableEq, Repr

/-- Trace of a whole `wait_for_services` call. -/
structure WaitTrace where
  rounds : List Round
  outcome : WaitOutcome
deriving DecidableEq, Repr

/-- The `for attempt in range(max_attempts)` loop of install.py lines
290-310: a fully healthy round returns immediately with no sleep; an
unhealthy round sleeps 5 seconds (line 310) and continues. -/
def waitLoop (env : HttpEnv) (services : Catalog) : Nat → Nat → WaitTrace
  | _, 0 => ⟨[], WaitOutcome.timedOut⟩
  | attempt, fuel + 1 =>
    if (roundChecks env attempt services).2 then
      ⟨[⟨attempt, (roundChecks env attempt services).1, none⟩], WaitOutcome.healthy⟩
    else
      ⟨⟨attempt, (roundChecks env attempt services).1, some 5⟩ ::
         (waitLoop env services (attempt + 1) fuel).rounds,
       (waitLoop env services (attempt + 1) fuel).outcome⟩

/-- Function `wait_for_services` (install.py lines 283-314): `max_attempts = 24`
rounds starting at attempt 0. -/
def wait_for_services (env : HttpEnv) (services : Catalog) : WaitTrace :=
  waitLoop env services 0 24

/-! ### Health poller lemmas -/

theorem roundChecks_all_healthy (env : HttpEnv) (a : Nat) :
    ∀ services : Catalog,
    (∀ p ∈ services, p.2.selected = true →
      check_service_health env a p.2.port p.2.health_path = true) →
    roundChecks env a services = (pollConsidered services, true) := by
  intro services
  induction services with
  | nil => intro _; rfl
  | cons p rest ih =>
      intro h
      unfold roundChecks pollConsidered
      cases hsel : p.2.selected with
      | false => simpa using ih (fun q hq hs => h q (List.mem_cons_of_mem p hq) hs)
      | true =>
          have hc := h p (List.mem_cons_self p rest) hsel
          simp [hc, ih (fun q hq hs => h q (List.mem_cons_of_mem p hq) hs)]

theorem roundChecks_true_checked (env : HttpEnv) (a : Nat) :
    ∀ services : Catalog,
    (roundChecks env a services).2 = true →
    (roundChecks env a services).1 = pollConsidered services := by
  intro services
  induction services with
  | nil => intro _; rfl
  | cons p rest ih =>
      intro h
      unfold roundChecks at h ⊢
      unfold pollConsidered
      cases hsel : p.2.selected with
      | false =>
          rw [hsel] at h
          simp only [Bool.false_eq_true, if_false] at h ⊢
          exact ih h
      | true =>
          rw [hsel] at h
          cases hc : check_service_health env a p.2.port p.2.health_path with
          | false => rw [hc] at h; simp at h
          | true =>
              rw [hc] at h
              simp only [if_true, if_pos rfl] at h ⊢
              simp only [ih (by simpa using h)]

theorem roundChecks_false_of_failing (env : HttpEnv) (a : Nat) (id : String)
    (s : Service) :
    ∀ services : Catalog, (id, s) ∈ services → s.selected = true →
    check_service_health env a s.port s.health_path = false →
    (roundChecks env a services).2 = false := by
  intro services
  induction services with
  | nil => intro hmem; cases hmem
  | cons p rest ih =>
      intro hmem hsel hfail
      unfold roundChecks
      rcases List.mem_cons.mp hmem with heq | hmem2
      · rw [← heq]
        simp only [hsel, if_pos rfl, hfail]
        rfl
      · cases hps : p.2.selected with
        | false => simpa using ih hmem2 hsel hfail
        | true =>
            cases hc : check_service_health env a p.2.port p.2.health_path with
            | false => simp
            | true => simpa using ih hmem2 hsel hfail

/-! ## Subprocess layer (install.py `run_command`, lines 128-140) -/

/-- What `subprocess.run` did for a given argv: completed with a return
code and captured stdout, hit the timeout
(`subprocess.TimeoutExpired`), or raised some other exception. -/
inductive CmdOutcome where
  | completed (exitCode : Int) (stdout : String)
  | timedOut
  | raised (msg : String)
deriving DecidableEq, Repr

/-- Oracle for subprocess execution, indexed by argv. -/
abbrev CmdEnv := List String → CmdOutcome

/-- Python `str.strip()` as a `String` function. -/
def pyStrip (s : String) : String := ⟨stripEnds s.toList⟩

/-- Function `run_command` with `capture_output=True` (install.py lines 131-133,
137-140): `(returncode == 0, stdout.strip())`, any timeout or exception
becomes `(False, message)`. -/
def run_command (env : CmdEnv) (cmd : List String) : Bool × String :=
  match env cmd with
  | .completed code out => (code == 0, pyStrip out)
  | .timedOut => (false, "Command timed out")
  | .raised msg => (false, msg)

/-- Function `run_command` with `capture_output=False` (install.py lines 134-140):
output streams to the terminal, so the returned string is empty. -/
def run_command_streamed (env : CmdEnv) (cmd : List String) : Bool × String :=
  match env cmd with
  | .completed code _ => (code == 0, "")
  | .timedOut => (false, "Command timed out")
  | .raised msg => (false, msg)

/-- Observable side effects of the flow: a captured subprocess run or a
streamed (not captured) subprocess run, with its argv. -/
inductive Event where
  | cmdCaptured (argv : List String)
  | cmdStreamed (argv : List String)
deriving DecidableEq, Repr

/-! ## Environment prober (install.py `check_docker` lines 142-161,
`check_gpu` lines 176-187) -/

/-- Function `check_docker`: `docker --version` must succeed, then `docker ps`
must succeed; the first failure returns `False` without running the
second command. Paired with the list of commands it issued. -/
def check_docker (env : CmdEnv) : Bool × List Event :=
  if (run_command env ["docker", "--version"]).1 = false then
    (false, [Event.cmdCaptured ["docker", "--version"]])
  else if (run_command env ["docker", "ps"]).1 = false then
    (false, [Event.cmdCaptured ["docker", "--version"],
             Event.cmdCaptured ["docker", "ps"]])
  else
    (true, [Event.cmdCaptured ["docker", "--version"],
            Event.cmdCaptured ["docker", "ps"]])

/-- Python `needle in haystack` (substring test) on character lists:
does some suffix of the haystack start with the needle? -/
def charsLeadWith : List Char → List Char → Bool
  | [], _ => true
  | _ :: _, [] => false
  | c :: cs, d :: ds => c == d && charsLeadWith cs ds

/-- Occurrence of `pat` anywhere in the list. -/
def charsContain (pat : List Char) : List Char → Bool
  | [] => charsLeadWith pat []
  | c :: cs => charsLeadWith pat (c :: cs) || charsContain pat cs

/-- Python's `pat in s` substring operator. -/
def strContains (s pat : String) : Bool := charsContain pat.toList s.toList

/-- Function `check_gpu` (install.py lines 176-187): true iff `nvidia-smi`
succeeded and its (stripped) output contains the marker `"NVIDIA"`. -/
def check_gpu (env : CmdEnv) : Bool :=
  (run_command env ["nvidia-smi"]).1 &&
    strContains (run_command env ["nvidia-smi"]).2 "NVIDIA"

/-! ## Deployment driver (install.py `deploy_services`, lines 236-268) -/

/-- The service-identifier list built at install.py line 241:
`[service_id for service_id, service in self.services.items() if
service['selected']]`. -/
def deployTargets (services : Catalog) : List String :=
  (services.filter (fun p => p.2.selected)).map Prod.fst

/-- Function `deploy_services`: empty selection returns `False` at once (lines
243-245); then `docker compose pull <ids>` (lines 251-256) and only on
its success `docker compose up -d <ids>` (lines 260-265), each streamed,
each failure returning `False` immediately. Paired with the streamed
commands actually issued. -/
def deploy_services (env : CmdEnv) (services : Catalog) : Bool × List Event :=
  if deployTargets services = [] then (false, [])
  else if (run_command_streamed env
      (["docker", "compose", "pull"] ++ deployTargets services)).1 then
    if (run_command_streamed env
        (["docker", "compose", "up", "-d"] ++ deployTargets services)).1 then
      (true, [Event.cmdStreamed (["docker", "compose", "pull"] ++ deployTargets services),
              Event.cmdStreamed (["docker", "compose", "up", "-d"] ++ deployTargets services)])
    else
      (false, [Event.cmdStreamed (["docker", "compose", "pull"] ++ deployTargets services),
               Event.cmdStreamed (["docker", "compose", "up", "-d"] ++ deployTargets services)])
  else
    (false, [Event.cmdStreamed (["docker", "compose", "pull"] ++ deployTargets services)])

/-! ## Main flow (install.py `run`, lines 392-429) -/

/-- The whole external world of one run. -/
structure Env where
  cmd : CmdEnv
  http : HttpEnv
  inputs : Nat → String

/-- Result of `run`: its boolean return value, the subprocess events it
caused, and the health-poll trace when the poller was reached. -/
structure RunResult where
  success : Bool
  events : List Event
  wait : Option WaitTrace
deriving DecidableEq, Repr

/-- Function `run` (install.py lines 392-429): check Docker and return `False` on
failure (lines 402-404); run the GPU check, whose boolean only feeds the
presentation layer (line 407); loop the selection prompt (line 410);
deploy, returning `False` on failure (lines 413-414); poll health —
`wait_for_services` returns `True` on both of its outcomes and `run`
does not branch on it (line 417) — and return `True` (line 422). `fuel`
bounds the selection loop; `none` means the operator never made a valid
selection. -/
def run (env : Env) (fuel : Nat) : Option RunResult :=
  if (check_docker env.cmd).1 = false then
    some ⟨false, (check_docker env.cmd).2, none⟩
  else
    match selectLoop env.inputs 0 fuel initialServices with
    | none => none
    | some services =>
      if (deploy_services env.cmd services).1 = false then
        some ⟨false, (check_docker env.cmd).2 ++
          [Event.cmdCaptured ["nvidia-smi"]] ++ (deploy_services env.cmd services).2,
          none⟩
      else
        some ⟨true, (check_docker env.cmd).2 ++
          [Event.cmdCaptured ["nvidia-smi"]] ++ (deploy_services env.cmd services).2,
          some (wait_for_services env.http services)⟩

/-- The fully selected catalog produced by the "A" input. -/
def svcAll : Catalog := selectAll initialServices

theorem waitLoop_all_rounds_fail (env : HttpEnv) (services : Catalog)
    (h : ∀ a, (roundChecks env a services).2 = false) :
    ∀ fuel a, waitLoop env services a fuel =
      ⟨(List.range' a fuel).map
         (fun k => ⟨k, (roundChecks env k services).1, some 5⟩),
       WaitOutcome.timedOut⟩ := by
  intro fuel
  induction fuel with
  | zero => intro a; rfl
  | succ fuel ih =>
      intro a
      unfold waitLoop
      rw [if_neg (by rw [h a]; exact Bool.false_ne_true), ih (a + 1),
        List.range'_succ, List.map_cons]

/-- Claim C3: when every selected descriptor's health check returns
HTTP 200 on the first attempt, `wait_for_services` returns the healthy
outcome after exactly one round whose trailing sleep is absent. -/
theorem wait_healthy_first_round (env : HttpEnv) (services : Catalog)
    (h : ∀ p ∈ services, p.2.selected = true →
      check_service_health env 0 p.2.port p.2.health_path = true) :
    wait_for_services env services =
      ⟨[⟨0, pollConsidered services, none⟩], WaitOutcome.healthy⟩ := by
  have hr := roundChecks_all_healthy env 0 services h
  show waitLoop env services 0 (23 + 1) = _
  unfold waitLoop
  rw [hr]
  simp

/-- Claim C3 witness: an environment answering 200 everywhere, with the
full catalog selected. -/
theorem wait_healthy_first_round_witness :
    (∀ p ∈ svcAll, p.2.selected = true →
      check_service_health (fun _ _ _ => some 200) 0 p.2.port p.2.health_path = true) ∧
    wait_for_services (fun _ _ _ => some 200) svcAll =
      ⟨[⟨0, pollConsidered svcAll, none⟩], WaitOutcome.healthy⟩ :=
  ⟨fun _ _ _ => rfl,
   wait_healthy_first_round (fun _ _ _ => some 200) svcAll (fun _ _ _ => rfl)⟩

/-- Claim C5: within one round, the first selected descriptor whose
check fails ends the round: the identifiers checked are exactly the
selected ones before it plus itself, so nothing after it in iteration
order is checked, and the round is unhealthy. -/
theorem round_short_circuits (env : HttpEnv) (attempt : Nat)
    (pre post : Catalog) (idf : String) (sf : Service)
    (hpre : ∀ p ∈ pre, p.2.selected = true →
      check_service_health env attempt p.2.port p.2.health_path = true)
    (hsel : sf.selected = true)
    (hfail : check_service_health env attempt sf.port sf.health_path = false) :
    roundChecks env attempt (pre ++ (idf, sf) :: post) =
      (pollConsidered pre ++ [idf], false) := by
  induction pre with
  | nil =>
      rw [List.nil_append]
      unfold roundChecks
      simp [hsel, hfail, pollConsidered]
  | cons p pre ih =>
      rw [List.cons_append]
      unfold roundChecks pollConsidered
      cases hps : p.2.selected with
      | false =>
          simpa using ih (fun q hq hs => hpre q (List.mem_cons_of_mem p hq) hs)
      | true =>
          have hc := hpre p (List.mem_cons_self p pre) hps
          simp [hc, ih (fun q hq hs => hpre q (List.mem_cons_of_mem p hq) hs)]

/-- Claim C5 witness: three selected services; the middle one (port
5001) fails, so the third is never checked in that round. -/
theorem round_short_circuits_witness :
    roundChecks (fun _ port _ => if port = 8188 then some 200 else some 500) 0
      ([("clara_comfyui", ⟨"ComfyUI", "AI Image Generation Powerhouse", 8188, "/", true⟩)] ++
        ("clara_python", ⟨"Python Backend", "Advanced AI Processing APIs", 5001, "/health", true⟩) ::
        [("clara_n8n", ⟨"n8n Workflows", "Automation Made Simple", 5678, "/healthz", true⟩)]) =
      (["clara_comfyui", "clara_python"], false) :=
  (round_short_circuits (fun _ port _ => if port = 8188 then some 200 else some 500) 0
    [("clara_comfyui", ⟨"ComfyUI", "AI Image Generation Powerhouse", 8188, "/", true⟩)]
    [("clara_n8n", ⟨"n8n Workflows", "Automation Made Simple", 5678, "/healthz", true⟩)]
    "clara_python" ⟨"Python Backend", "Advanced AI Processing APIs", 5001, "/health", true⟩
    (by decide) (by decide) (by decide)).trans (by decide)

/-- Claim C9: the identifier list handed to the deployment driver (line
241) and the identifier list the health poller iterates over (lines
293-295) are the same — both are the selected subset of the catalog in
order — and in a fully healthy round the poller checks exactly that
list. -/
theorem deployed_equals_polled (env : HttpEnv) (services : Catalog) :
    pollConsidered services = deployTargets services ∧
    ∀ attempt, (roundChecks env attempt services).2 = true →
      (roundChecks env attempt services).1 = deployTargets services := by
  have hpd : ∀ l : Catalog, pollConsidered l = deployTargets l := by
    intro l
    induction l with
    | nil => rfl
    | cons p rest ih =>
        unfold pollConsidered deployTargets
        unfold deployTargets at ih
        rw [List.filter_cons]
        cases hps : p.2.selected with
        | true => simp [ih]
        | false => simp [ih]
  exact ⟨hpd services,
    fun attempt h => (roundChecks_true_checked env attempt services h).trans (hpd services)⟩

/-- Claim C9 witness: a catalog with only the middle entry selected and
an all-healthy environment. -/
theorem deployed_equals_polled_witness :
    pollConsidered mixedServices = deployTargets mixedServices ∧
    (roundChecks (fun _ _ _ => some 200) 0 mixedServices).2 = true ∧
    (roundChecks (fun _ _ _ => some 200) 0 mixedServices).1 = deployTargets mixedServices :=
  ⟨(deployed_equals_polled (fun _ _ _ => some 200) mixedServices).1,
   by decide,
   (deployed_equals_polled (fun _ _ _ => some 200) mixedServices).2 0 (by decide)⟩

/-- Closed form of `check_gpu` over the three subprocess outcomes. -/
theorem check_gpu_eq (env : CmdEnv) :
    check_gpu env = (match env ["nvidia-smi"] with
      | .completed code out => (code == 0) && strContains (pyStrip out) "NVIDIA"
      | .timedOut => false
      | .raised _ => false) := by
  unfold check_gpu run_command
  cases env ["nvidia-smi"] <;> simp

/-- Environment for the C4 witness: subprocesses all succeed, every
health request answers HTTP 500, the operator picks all services. -/
def env500 : Env :=
  ⟨fun _ => CmdOutcome.completed 0 "ok", fun _ _ _ => some 500, fun _ => "A"⟩

/-- Environment for the C7 witness: `nvidia-smi` exits 1, everything
else succeeds, health is always 200, the operator picks all services. -/
def envGpuBad : Env :=
  ⟨fun argv => if argv = ["nvidia-smi"] then CmdOutcome.completed 1 ""
     else CmdOutcome.completed 0 "ok",
   fun _ _ _ => some 200, fun _ => "A"⟩

/-- Environment for the C8 witness: every subprocess times out. -/
def envDockerDown : Env :=
  ⟨fun _ => CmdOutcome.timedOut, fun _ _ _ => none, fun _ => "A"⟩

/-- Claim C4: when some selected descriptor fails its health check on
every attempt, `wait_for_services` runs exactly 24 rounds (attempts
0..23), sleeps 5 seconds after every round — in particular between each
pair of consecutive rounds — returns the non-fatal timed-out outcome,
and a run that reached the poller still reports overall success. -/
theorem wait_times_out_and_run_succeeds (env : Env) (fuel : Nat)
    (services : Catalog) (id : String) (s : Service)
    (hmem : (id, s) ∈ services) (hsel : s.selected = true)
    (hfail : ∀ a, check_service_health env.http a s.port s.health_path = false) :
    (wait_for_services env.http services).outcome = WaitOutcome.timedOut ∧
    (wait_for_services env.http services).rounds.map Round.attempt = List.range 24 ∧
    (∀ r ∈ (wait_for_services env.http services).rounds, r.sleptAfter = some 5) ∧
    ((check_docker env.cmd).1 = true →
      selectLoop env.inputs 0 fuel initialServices = some services →
      (deploy_services env.cmd services).1 = true →
      ∃ ev, run env fuel =
        some ⟨true, ev, some (wait_for_services env.http services)⟩) := by
  have hall : ∀ a, (roundChecks env.http a services).2 = false :=
    fun a => roundChecks_false_of_failing env.http a id s services hmem hsel (hfail a)
  have hw : wait_for_services env.http services =
      ⟨(List.range' 0 24).map
         (fun k => ⟨k, (roundChecks env.http k services).1, some 5⟩),
       WaitOutcome.timedOut⟩ :=
    waitLoop_all_rounds_fail env.http services hall 24 0
  refine ⟨by rw [hw], ?_, ?_, ?_⟩
  · rw [hw]
    simp only [List.map_map]
    have hcomp : (Round.attempt ∘ fun k =>
        ({ attempt := k, checked := (roundChecks env.http k services).1,
           sleptAfter := some 5 } : Round)) = fun k => k := rfl
    rw [hcomp, List.map_id', List.range_eq_range']
  · intro r hr
    rw [hw] at hr
    simp only [List.mem_map] at hr
    obtain ⟨k, _, hk⟩ := hr
    rw [← hk]
  · intro h1 h2 h3
    refine ⟨(check_docker env.cmd).2 ++ [Event.cmdCaptured ["nvidia-smi"]] ++
      (deploy_services env.cmd services).2, ?_⟩
    unfold run
    rw [h2]
    simp [h1, h3]

/-- Claim C4 witness: all services selected, every health request
answers 500, subprocesses succeed; the poller times out after 24
slept-after rounds and the run still returns overall success. -/
theorem wait_times_out_and_run_succeeds_witness :
    (wait_for_services env500.http svcAll).outcome = WaitOutcome.timedOut ∧
    (wait_for_services env500.http svcAll).rounds.map Round.attempt = List.range 24 ∧
    (∀ r ∈ (wait_for_services env500.http svcAll).rounds, r.sleptAfter = some 5) ∧
    ∃ ev, run env500 1 = some ⟨true, ev, some (wait_for_services env500.http svcAll)⟩ := by
  have h := wait_times_out_and_run_succeeds env500 1 svcAll "clara_comfyui"
    ⟨"ComfyUI", "AI Image Generation Powerhouse", 8188, "/", true⟩
    (by decide) rfl (fun _ => rfl)
  exact ⟨h.1, h.2.1, h.2.2.1, h.2.2.2 (by decide) (by decide) (by decide)⟩

/-- Claim C6: when the selection is nonempty and the orchestration pull
command fails, the deployment driver returns the failure result having
issued exactly that one pull command: the start command is never issued,
nothing is retried and nothing is rolled back. -/
theorem pull_failure_skips_start (env : CmdEnv) (services : Catalog)
    (hne : deployTargets services ≠ [])
    (hfail : (run_command_streamed env
      (["docker", "compose", "pull"] ++ deployTargets services)).1 = false) :
    deploy_services env services =
      (false, [Event.cmdStreamed
        (["docker", "compose", "pull"] ++ deployTargets services)]) := by
  unfold deploy_services
  rw [if_neg hne, if_neg (by simpa using hfail)]

/-- Claim C6 witness: every subprocess times out, so the pull fails and
the only event is the single pull command. -/
theorem pull_failure_skips_start_witness :
    deployTargets svcAll ≠ [] ∧
    deploy_services (fun _ => CmdOutcome.timedOut) svcAll =
      (false, [Event.cmdStreamed ["docker", "compose", "pull",
        "clara_comfyui", "clara_python", "clara_n8n"]]) :=
  ⟨by decide,
   (pull_failure_skips_start (fun _ => CmdOutcome.timedOut) svcAll
      (by decide) rfl).trans (by decide)⟩

/-- Claim C7: the GPU probe returns true exactly when `nvidia-smi`
completed with exit code 0 and its stripped output contains the marker
`"NVIDIA"`; any timeout, exception, nonzero exit or absent marker gives
false, and a false probe is non-fatal: a run whose other steps succeed
still returns overall success. -/
theorem gpu_probe_marker_iff_and_nonfatal (env : Env) (fuel : Nat) :
    (check_gpu env.cmd = true ↔
      ∃ out : String, env.cmd ["nvidia-smi"] = CmdOutcome.completed 0 out ∧
        strContains (pyStrip out) "NVIDIA" = true) ∧
    (check_gpu env.cmd = false →
      (check_docker env.cmd).1 = true →
      ∀ services, selectLoop env.inputs 0 fuel initialServices = some services →
        (deploy_services env.cmd services).1 = true →
        ∃ ev w, run env fuel = some ⟨true, ev, w⟩) := by
  constructor
  · rw [check_gpu_eq]
    cases hc : env.cmd ["nvidia-smi"] with
    | completed code out =>
        constructor
        · intro h
          rw [Bool.and_eq_true] at h
          have hcode : code = 0 := by simpa using h.1
          exact ⟨out, by rw [hcode], h.2⟩
        · rintro ⟨out2, heq, hcont⟩
          injection heq with h1 h2
          subst h1
          subst h2
          simp [hcont]
    | timedOut =>
        constructor
        · intro h; cases h
        · rintro ⟨out2, heq, _⟩; cases heq
    | raised msg =>
        constructor
        · intro h; cases h
        · rintro ⟨out2, heq, _⟩; cases heq
  · intro _ h1 services h2 h3
    refine ⟨(check_docker env.cmd).2 ++ [Event.cmdCaptured ["nvidia-smi"]] ++
      (deploy_services env.cmd services).2,
      some (wait_for_services env.http services), ?_⟩
    unfold run
    rw [h2]
    simp [h1, h3]

/-- Claim C7 witness: `nvidia-smi` exits 1, the probe is false, no
marker text is required anywhere, and the run still succeeds. -/
theorem gpu_probe_marker_iff_and_nonfatal_witness :
    check_gpu envGpuBad.cmd = false ∧
    ∃ ev w, run envGpuBad 1 = some ⟨true, ev, w⟩ :=
  ⟨by decide,
   (gpu_probe_marker_iff_and_nonfatal envGpuBad 1).2 (by decide) (by decide)
     svcAll (by decide) (by decide)⟩

/-- Claim C8: the runtime probe is true only when both `docker
--version` and `docker ps` succeed; whenever it is false, `run` returns
the failure result before the deployment driver is reached, and its
event trace contains no streamed command at all — so neither pull nor
start is ever issued in that run. -/
theorem docker_probe_gates_deployment (env : Env) (fuel : Nat) :
    ((check_docker env.cmd).1 = true →
      (run_command env.cmd ["docker", "--version"]).1 = true ∧
      (run_command env.cmd ["docker", "ps"]).1 = true) ∧
    ((check_docker env.cmd).1 = false →
      ∃ ev, run env fuel = some ⟨false, ev, none⟩ ∧
        ∀ argv, Event.cmdStreamed argv ∉ ev) := by
  constructor
  · intro h
    unfold check_docker at h
    by_cases hv : (run_command env.cmd ["docker", "--version"]).1 = false
    · rw [if_pos hv] at h
      simp at h
    · rw [if_neg hv] at h
      by_cases hp : (run_command env.cmd ["docker", "ps"]).1 = false
      · rw [if_pos hp] at h
        simp at h
      · exact ⟨by simpa using hv, by simpa using hp⟩
  · intro h
    refine ⟨(check_docker env.cmd).2, ?_, ?_⟩
    · unfold run
      rw [if_pos h]
    · intro argv
      unfold check_docker
      by_cases hv : (run_command env.cmd ["docker", "--version"]).1 = false
      · rw [if_pos hv]
        simp
      · rw [if_neg hv]
        by_cases hp : (run_command env.cmd ["docker", "ps"]).1 = false
        · rw [if_pos hp]
          simp
        · rw [if_neg hp]
          simp

/-- Claim C8 witness: every subprocess times out, so the version check
fails, the run fails, and its trace holds no streamed command. -/
theorem docker_probe_gates_deployment_witness :
    (check_docker envDockerDown.cmd).1 = false ∧
    ∃ ev, run envDockerDown 1 = some ⟨false, ev, none⟩ ∧
      ∀ argv, Event.cmdStreamed argv ∉ ev :=
  ⟨by decide, (docker_probe_gates_deployment envDockerDown 1).2 (by decide)⟩

/-- Claim C10: invoking the deployment driver with no selected service
returns the failure result without issuing any orchestration command. -/
theorem deploy_empty_selection_fails (env : CmdEnv) (services : Catalog)
    (h : ∀ p ∈ services, p.2.selected = false) :
    deploy_services env services = (false, []) := by
  have ht : deployTargets services = [] := by
    unfold deployTargets
    have hf : services.filter (fun p => p.2.selected) = [] := by
      rw [List.filter_eq_nil_iff]
      intro a ha
      simp [h a ha]
    rw [hf]
    rfl
  unfold deploy_services
  rw [if_pos ht]

/-- Claim C10 witness: the initial, fully unselected catalog. -/
theorem deploy_empty_selection_fails_witness :
    deploy_services (fun _ => CmdOutcome.timedOut) initialServices = (false, []) :=
  deploy_empty_selection_fails (fun _ => CmdOutcome.timedOut) initialServices (by decide)
